import Mathlib

/-!
# SpoolUp — formal verification of the orchestration core

Shallow embedding of the state-bearing logic of `src/spoolup/main.py`:

* `MoonrakerClient._handle_status_update` and the startup-snapshot branch of
  `SpoolUp.run` (device state watcher, start latch, edge-triggered callbacks);
* `MoonrakerClient.start_reconnection_loop` / `connect_websocket` (reconnect
  backoff);
* `YouTubeStreamer._transition_broadcast` (broadcast lifecycle table);
* `YouTubeStreamer._check_stream_health` and `_health_check_loop` (health
  classification, starvation counter, FFmpeg restart trigger);
* `YouTubeStreamer.start_streaming`, `_ffmpeg_monitor_loop`, `stop_streaming`
  (encoder supervision);
* `YouTubeStreamer._update_broadcast_description` and
  `_description_update_loop` (broadcast description updater).

Python dictionaries are embedded as structures with `Option` fields where a
key may be absent, strings as `String`, and the float reconnect delay as `ℚ`
(every value reached — products of 3/2 capped at 60 — is exactly
representable, so the rational model is exact).
-/

namespace SpoolUp

/-! ## Device state watcher (`MoonrakerClient`) -/

/-- The `print_stats` object carried by a `notify_status_update` notification
(or by the subscription response's initial snapshot): the handler reads the
optional keys `state` and `filename`. -/
structure PrintStats where
  state? : Option String
  filename? : Option String
deriving Repr, DecidableEq

/-- The fields of `MoonrakerClient` that `_handle_status_update` and the
startup-snapshot branch of `SpoolUp.run` read or write:
`print_state`, `current_file` and the start latch `_initial_state_handled`. -/
structure MoonrakerState where
  print_state : String
  current_file : Option String
  initial_state_handled : Bool
deriving Repr, DecidableEq

/-- Callback invocations observable from one processing step:
`on_print_started`, `on_print_completed`, `on_print_cancelled`, each with the
filename argument passed to it. -/
inductive PrintEvent where
  | started (filename : Option String)
  | completed (filename : Option String)
  | cancelled (filename : Option String)
deriving Repr, DecidableEq

/-- The trailing `if "filename" in stats: self.current_file = stats["filename"]`
block of `_handle_status_update`. -/
def updateFile (s : MoonrakerState) (stats : PrintStats) : MoonrakerState :=
  match stats.filename? with
  | some f => { s with current_file := some f }
  | none => s

/-- `MoonrakerClient._handle_status_update` (src/spoolup/main.py:268-310),
restricted to a payload that contains `print_stats` (otherwise the handler is
a no-op).  Returns the updated client state and the callbacks fired.
The `printing` branch with the latch already set executes `return`, skipping
the filename update; every other branch falls through to it. -/
def handle_status_update (s : MoonrakerState) (stats : PrintStats) :
    MoonrakerState × List PrintEvent :=
  match stats.state? with
  | none => (updateFile s stats, [])
  | some new_state =>
    if new_state = s.print_state then (updateFile s stats, [])
    else
      let old_state := s.print_state
      let s1 : MoonrakerState := { s with print_state := new_state }
      if new_state = "printing" ∧ old_state ≠ "printing" then
        if s1.initial_state_handled then (s1, [])
        else (updateFile { s1 with initial_state_handled := true } stats,
              [.started stats.filename?])
      else if new_state = "complete" ∧
          (old_state = "printing" ∨ old_state = "error" ∨ old_state = "paused") then
        (updateFile { s1 with initial_state_handled := false } stats,
         [.completed stats.filename?])
      else if new_state = "cancelled" ∧
          (old_state = "printing" ∨ old_state = "error" ∨ old_state = "paused") then
        (updateFile { s1 with initial_state_handled := false } stats,
         [.cancelled stats.filename?])
      else (updateFile s1 stats, [])

/-- Python's `a or b` on optional strings (`None` and `""` are falsy). -/
def orTruthy (a b : Option String) : Option String :=
  match a with
  | some s => if s = "" then b else some s
  | none => b

/-- The startup-snapshot branch of `SpoolUp.run` (src/spoolup/main.py:1802-1834):
after querying the HTTP API it computes `effective_state` (falling back to the
WebSocket state when HTTP reports `unknown`) and, when it is `printing` and
the latch is clear, marks the state, sets the latch and fires
`on_print_started` once. -/
def run_snapshot (s : MoonrakerState) (http_state : Option String)
    (http_filename : Option String) : MoonrakerState × List PrintEvent :=
  let current_state := http_state.getD "unknown"
  let effective_state :=
    if current_state = "unknown" ∧ s.print_state ≠ "unknown" then s.print_state
    else current_state
  if effective_state = "printing" then
    let filename := orTruthy s.current_file (orTruthy http_filename (some "3D Print"))
    if s.initial_state_handled then (s, [])
    else ({ print_state := "printing", current_file := filename,
            initial_state_handled := true }, [.started filename])
  else if effective_state ≠ "" ∧ effective_state ≠ "unknown" then
    ({ s with print_state := effective_state }, [])
  else (s, [])

/-- One stimulus of the device state watcher: either a status notification
(delivered live, re-delivered after reconnect, or contained in the
subscription response) or the startup HTTP snapshot of `SpoolUp.run`. -/
inductive DeviceStep where
  | notif (stats : PrintStats)
  | snapshot (http_state : Option String) (http_filename : Option String)
deriving Repr, DecidableEq

def applyStep (s : MoonrakerState) (st : DeviceStep) : MoonrakerState × List PrintEvent :=
  match st with
  | .notif stats => handle_status_update s stats
  | .snapshot hs hf => run_snapshot s hs hf

/-- Process a sequence of stimuli in arrival order (the notification path is
single-threaded), collecting all fired callbacks. -/
def runSteps (s : MoonrakerState) : List DeviceStep → MoonrakerState × List PrintEvent
  | [] => (s, [])
  | st :: rest =>
    let p := applyStep s st
    let q := runSteps p.1 rest
    (q.1, p.2 ++ q.2)

/-- Trace discipline for start events: scanning the callback trace with the
latch value, a `started` callback may occur only while the latch is clear and
sets it; `completed`/`cancelled` clear it.  Hence between any two `started`
callbacks there is a `completed` or `cancelled`. -/
def startsSeparated : Bool → List PrintEvent → Bool
  | _, [] => true
  | latched, .started _ :: rest => !latched && startsSeparated true rest
  | _, .completed _ :: rest => startsSeparated false rest
  | _, .cancelled _ :: rest => startsSeparated false rest

theorem updateFile_latch (s : MoonrakerState) (stats : PrintStats) :
    (updateFile s stats).initial_state_handled = s.initial_state_handled := by
  unfold updateFile
  cases stats.filename? <;> rfl

/-- Case analysis of one notification: it either fires nothing and keeps the
latch, fires one `started` from a clear latch and sets it, or fires one
`completed`/`cancelled` and clears it. -/
theorem handle_status_update_latch_cases (s : MoonrakerState) (stats : PrintStats) :
    ((handle_status_update s stats).2 = [] ∧
        (handle_status_update s stats).1.initial_state_handled = s.initial_state_handled) ∨
    (∃ f, (handle_status_update s stats).2 = [.started f] ∧
        s.initial_state_handled = false ∧
        (handle_status_update s stats).1.initial_state_handled = true) ∨
    (∃ f, ((handle_status_update s stats).2 = [.completed f] ∨
          (handle_status_update s stats).2 = [.cancelled f]) ∧
        (handle_status_update s stats).1.initial_state_handled = false) := by
  unfold handle_status_update
  rcases hst : stats.state? with _ | new_state
  · exact Or.inl ⟨rfl, updateFile_latch s stats⟩
  · dsimp only
    split_ifs
    all_goals first
      | exact Or.inl ⟨rfl, by simp [updateFile_latch]⟩
      | refine Or.inr (Or.inl ⟨_, rfl, by simp_all, by simp [updateFile_latch]⟩)
      | exact Or.inr (Or.inr ⟨_, Or.inl rfl, by simp [updateFile_latch]⟩)
      | exact Or.inr (Or.inr ⟨_, Or.inr rfl, by simp [updateFile_latch]⟩)

/-- Case analysis of the startup snapshot: it either fires nothing and keeps
the latch, or fires one `started` from a clear latch and sets it. -/
theorem run_snapshot_latch_cases (s : MoonrakerState) (hs hf : Option String) :
    ((run_snapshot s hs hf).2 = [] ∧
        (run_snapshot s hs hf).1.initial_state_handled = s.initial_state_handled) ∨
    (∃ f, (run_snapshot s hs hf).2 = [.started f] ∧
        s.initial_state_handled = false ∧
        (run_snapshot s hs hf).1.initial_state_handled = true) := by
  unfold run_snapshot
  dsimp only
  split_ifs
  all_goals first
    | exact Or.inl ⟨rfl, rfl⟩
    | refine Or.inr ⟨_, rfl, by simp_all, rfl⟩

/-- Per-step case analysis: a step either fires nothing and keeps the latch,
fires one `started` from a clear latch and sets it, or fires one
`completed`/`cancelled` and clears it. -/
theorem applyStep_latch_cases (s : MoonrakerState) (st : DeviceStep) :
    ((applyStep s st).2 = [] ∧
        (applyStep s st).1.initial_state_handled = s.initial_state_handled) ∨
    (∃ f, (applyStep s st).2 = [.started f] ∧
        s.initial_state_handled = false ∧
        (applyStep s st).1.initial_state_handled = true) ∨
    (∃ f, ((applyStep s st).2 = [.completed f] ∨ (applyStep s st).2 = [.cancelled f]) ∧
        (applyStep s st).1.initial_state_handled = false) := by
  cases st with
  | notif stats => exact handle_status_update_latch_cases s stats
  | snapshot hs hf =>
    rcases run_snapshot_latch_cases s hs hf with h | h
    · exact Or.inl h
    · exact Or.inr (Or.inl h)

theorem runSteps_startsSeparated (s : MoonrakerState) (l : List DeviceStep) :
    startsSeparated s.initial_state_handled (runSteps s l).2 = true := by
  induction l generalizing s with
  | nil => rfl
  | cons st rest ih =>
    simp only [runSteps]
    rcases applyStep_latch_cases s st with ⟨he, hl⟩ | ⟨f, he, h0, h1⟩ | ⟨f, he, h1⟩
    · rw [he]
      simpa [hl] using ih (applyStep s st).1
    · rw [he, h0]
      simpa [startsSeparated, h1] using ih (applyStep s st).1
    · rcases he with he | he <;>
      · rw [he]
        simpa [startsSeparated, h1] using ih (applyStep s st).1

theorem handle_status_update_suppressed (s : MoonrakerState) (stats : PrintStats)
    (hl : s.initial_state_handled = true)
    (hp : stats.state? = some "printing") :
    (handle_status_update s stats).2 = [] := by
  unfold handle_status_update
  rw [hp]
  dsimp only
  split_ifs <;> simp_all

theorem run_snapshot_suppressed (s : MoonrakerState) (hs hf : Option String)
    (hl : s.initial_state_handled = true) :
    (run_snapshot s hs hf).2 = [] := by
  unfold run_snapshot
  dsimp only
  split_ifs <;> simp_all

theorem handle_status_update_started (s : MoonrakerState) (stats : PrintStats)
    (f : Option String)
    (hm : PrintEvent.started f ∈ (handle_status_update s stats).2) :
    s.initial_state_handled = false ∧ stats.state? = some "printing" ∧
      s.print_state ≠ "printing" ∧
      (handle_status_update s stats).1.initial_state_handled = true := by
  revert hm
  unfold handle_status_update
  rcases hst : stats.state? with _ | new_state
  · simp
  · dsimp only
    split_ifs <;> intro hm <;> simp_all [updateFile_latch]

/-- **C1.** For every sequence of device stimuli processed by
`MoonrakerClient._handle_status_update` (duplicate `printing` notifications,
reconnect re-delivery, and the startup-snapshot path of `SpoolUp.run`
included), at most one `on_print_started` fires per activity instance:
a transition into `printing` fires the start callback only if the start latch
`_initial_state_handled` is clear, setting it; while the latch is set every
further transition into `printing` (and every snapshot) is suppressed; and a
second start can fire only after a `complete`/`cancelled` transition cleared
the latch — formalised by the trace discipline `startsSeparated`. -/
theorem C1_single_start_per_activity (s : MoonrakerState) (l : List DeviceStep)
    (stats : PrintStats) (hs hf f : Option String) :
    startsSeparated s.initial_state_handled (runSteps s l).2 = true
    ∧ (s.initial_state_handled = true → stats.state? = some "printing" →
        (handle_status_update s stats).2 = [])
    ∧ (s.initial_state_handled = true → (run_snapshot s hs hf).2 = [])
    ∧ (PrintEvent.started f ∈ (handle_status_update s stats).2 →
        s.initial_state_handled = false ∧ stats.state? = some "printing" ∧
        s.print_state ≠ "printing" ∧
        (handle_status_update s stats).1.initial_state_handled = true) :=
  ⟨runSteps_startsSeparated s l,
   fun hl hp => handle_status_update_suppressed s stats hl hp,
   fun hl => run_snapshot_suppressed s hs hf hl,
   fun hm => handle_status_update_started s stats f hm⟩

/-- Concrete run exercising **C1**: start, suppressed snapshot, error,
suppressed recovery, completion, then a second legitimate start. -/
theorem C1_single_start_per_activity_witness :
    startsSeparated false
      (runSteps ⟨"standby", none, false⟩
        [DeviceStep.notif ⟨some "printing", some "a.gcode"⟩,
         DeviceStep.snapshot (some "printing") none,
         DeviceStep.notif ⟨some "error", none⟩,
         DeviceStep.notif ⟨some "printing", none⟩,
         DeviceStep.notif ⟨some "complete", none⟩,
         DeviceStep.notif ⟨some "printing", none⟩]).2 = true
    ∧ (handle_status_update ⟨"error", none, true⟩ ⟨some "printing", none⟩).2 = [] :=
  ⟨(C1_single_start_per_activity ⟨"standby", none, false⟩ _
      ⟨some "printing", none⟩ none none none).1,
   (C1_single_start_per_activity ⟨"error", none, true⟩ []
      ⟨some "printing", none⟩ none none none).2.1 rfl rfl⟩

theorem handle_status_update_latch_clear (s : MoonrakerState) (stats : PrintStats)
    (h : s.initial_state_handled = true)
    (h' : (handle_status_update s stats).1.initial_state_handled = false) :
    (stats.state? = some "complete" ∨ stats.state? = some "cancelled") ∧
      (s.print_state = "printing" ∨ s.print_state = "error" ∨
        s.print_state = "paused") := by
  revert h'
  unfold handle_status_update
  rcases hst : stats.state? with _ | new_state
  · simp [updateFile_latch, h]
  · dsimp only
    split_ifs <;> intro h' <;> simp_all [updateFile_latch]

theorem run_snapshot_no_latch_clear (s : MoonrakerState) (hs hf : Option String)
    (h : s.initial_state_handled = true) :
    (run_snapshot s hs hf).1.initial_state_handled = true := by
  rcases run_snapshot_latch_cases s hs hf with ⟨_, hl⟩ | ⟨f, _, h0, _⟩
  · rw [hl, h]
  · simp [h] at h0

/-- **C9.** A `printing → error` notification clears neither the start latch
nor fires any callback (the state merely becomes `error`); consequently the
recovery sequence `printing → error → printing` inside one latched activity
fires no second `on_print_started`; and the latch is cleared only by a
notification whose new state is `complete` or `cancelled` arriving while the
previous state is `printing`, `error` or `paused`. -/
theorem C9_error_transition_keeps_latch (s : MoonrakerState) (st : DeviceStep)
    (stats : PrintStats) (f : Option String) :
    (s.print_state = "printing" → stats.state? = some "error" →
      (handle_status_update s stats).2 = [] ∧
      (handle_status_update s stats).1.initial_state_handled =
        s.initial_state_handled ∧
      (handle_status_update s stats).1.print_state = "error")
    ∧ (s.print_state = "printing" → s.initial_state_handled = true →
        (runSteps s [.notif ⟨some "error", f⟩, .notif ⟨some "printing", none⟩]).2 = [])
    ∧ (s.initial_state_handled = true →
        (applyStep s st).1.initial_state_handled = false →
        ∃ stats', st = .notif stats' ∧
          (stats'.state? = some "complete" ∨ stats'.state? = some "cancelled") ∧
          (s.print_state = "printing" ∨ s.print_state = "error" ∨
            s.print_state = "paused")) := by
  refine ⟨fun hp he => ?_, fun hp hl => ?_, fun hl hc => ?_⟩
  · unfold handle_status_update
    rw [he]
    dsimp only
    split_ifs <;> simp_all [updateFile_latch, updateFile]
    rcases stats.filename? <;> simp [updateFile]
  · rcases f with _ | fn <;>
      simp_all [runSteps, applyStep, handle_status_update, updateFile]
  · cases st with
    | notif stats' =>
      exact ⟨stats', rfl, handle_status_update_latch_clear s stats' hl hc⟩
    | snapshot hs hf =>
      rw [show (applyStep s (.snapshot hs hf)).1 = (run_snapshot s hs hf).1 from rfl,
        run_snapshot_no_latch_clear s hs hf hl] at hc
      exact absurd hc (by simp)

/-- Concrete run exercising **C9**: with the latch set, `printing → error →
printing` fires nothing, and the latch survives the error transition. -/
theorem C9_error_transition_keeps_latch_witness :
    (runSteps ⟨"printing", some "a.gcode", true⟩
      [.notif ⟨some "error", none⟩, .notif ⟨some "printing", none⟩]).2 = []
    ∧ (handle_status_update ⟨"printing", some "a.gcode", true⟩
        ⟨some "error", none⟩).1.initial_state_handled = true :=
  ⟨(C9_error_transition_keeps_latch ⟨"printing", some "a.gcode", true⟩
      (.notif ⟨some "error", none⟩) ⟨some "error", none⟩ none).2.1 rfl rfl,
   by
    have h := (C9_error_transition_keeps_latch ⟨"printing", some "a.gcode", true⟩
      (.notif ⟨some "error", none⟩) ⟨some "error", none⟩ none).1 rfl rfl
    rw [h.2.1]⟩

/-! ## Broadcast lifecycle controller (`YouTubeStreamer._transition_broadcast`) -/

/-- The `valid_transitions` table of `_transition_broadcast`
(src/spoolup/main.py:824-831): `valid_transitions.get(current_status, [])`. -/
def valid_transitions (s : String) : List String :=
  if s = "created" then ["ready"]
  else if s = "ready" then ["testing", "live"]
  else if s = "testStarting" then ["testing"]
  else if s = "testing" then ["live"]
  else if s = "liveStarting" then ["live"]
  else if s = "live" then ["complete"]
  else []

/-- Decision taken by one invocation of `_transition_broadcast`
(src/spoolup/main.py:810-861) once the lifecycle fetch has returned:
`notFound` — lookup returned no items, return `False`; `alreadyInTarget` —
return `True` with no transition call; `waitRetry` — the intermediate
`testStarting→testing` / `liveStarting→live` handling: sleep 3s and re-invoke
with a fresh fetch; `rejected` — target not in the table for the current
state: warn and return `False` with no transition call; `issueTransition` —
the `liveBroadcasts().transition(...)` API call is issued. -/
inductive TransitionOutcome where
  | notFound
  | alreadyInTarget
  | waitRetry
  | rejected
  | issueTransition
deriving Repr, DecidableEq

def transition_broadcast_step (found : Bool) (current target : String) :
    TransitionOutcome :=
  if ¬found then .notFound
  else if current = target then .alreadyInTarget
  else if current = "testStarting" ∧ target = "testing" then .waitRetry
  else if current = "liveStarting" ∧ target = "live" then .waitRetry
  else if ¬((valid_transitions current).contains target) then .rejected
  else .issueTransition

/-- **C3.** For every current lifecycle state and requested target of
`_transition_broadcast`: a request for the current state itself returns
success with no remote transition call; and a target unreachable under the
fixed table `created→{ready}`, `ready→{testing,live}`,
`testStarting→{testing}`, `testing→{live}`, `liveStarting→{live}`,
`live→{complete}` (the `testStarting→testing` / `liveStarting→live`
wait-and-retry cases being reachable ones) is rejected with a logged warning,
no remote transition call, and a failure return. -/
theorem C3_transition_table_respected (current target : String) :
    (target = current →
      transition_broadcast_step true current target = .alreadyInTarget)
    ∧ (target ≠ current → (valid_transitions current).contains target = false →
      transition_broadcast_step true current target = .rejected) := by
  constructor
  · intro h
    subst h
    simp [transition_broadcast_step]
  · intro hne hmem
    unfold transition_broadcast_step
    rw [if_neg (by simp)]
    rw [if_neg (fun h => hne h.symm)]
    rw [if_neg, if_neg, if_pos (by simp only [hmem]; exact Bool.false_ne_true)]
    · rintro ⟨hc, ht⟩
      subst hc; subst ht
      simp [valid_transitions] at hmem
    · rintro ⟨hc, ht⟩
      subst hc; subst ht
      simp [valid_transitions] at hmem

/-- Concrete instances of **C3**: `live → live` is an idempotent no-op and
`testing → ready` is rejected without a remote call. -/
theorem C3_transition_table_respected_witness :
    transition_broadcast_step true "live" "live" = .alreadyInTarget
    ∧ transition_broadcast_step true "testing" "ready" = .rejected :=
  ⟨(C3_transition_table_respected "live" "live").1 rfl,
   (C3_transition_table_respected "testing" "ready").2 (by decide) (by decide)⟩

/-! ## Reconnection supervisor (`MoonrakerClient.start_reconnection_loop`) -/

/-- The delay update on a failed attempt (src/spoolup/main.py:363-366):
`self._reconnect_delay = min(self._reconnect_delay * 1.5, self._max_reconnect_delay)`
with `_max_reconnect_delay = 60.0`. -/
def next_reconnect_delay (d : ℚ) : ℚ := min (d * (3 / 2)) 60

/-- The fields of `MoonrakerClient` the reconnection loop manipulates. -/
structure ReconnectState where
  connected : Bool
  reconnect_delay : ℚ
deriving Repr, DecidableEq

/-- Constructor values: `connected = False`, `_reconnect_delay = 1.0`. -/
def initialReconnectState : ReconnectState := ⟨false, 1⟩

/-- One pass of the `reconnect_loop` body (src/spoolup/main.py:352-369),
returning the new state together with the seconds the loop then sleeps.
Nothing happens while connected; a successful `connect_websocket` resets the
delay variable to 1 (both in the loop and inside `connect_websocket` itself,
src/spoolup/main.py:165-166); a failure sets `min(delay * 1.5, 60)` and logs
"next attempt in {delay}s".  Every pass then executes the fixed
`time.sleep(1)` of src/spoolup/main.py:369 — `_reconnect_delay` is only
assigned and logged, never slept, so the inter-attempt pacing is the constant
1 second whatever the computed backoff value. -/
def reconnect_iteration (s : ReconnectState) (attempt_succeeds : Bool) :
    ReconnectState × ℚ :=
  if s.connected then (s, 1)
  else if attempt_succeeds then ({ connected := true, reconnect_delay := 1 }, 1)
  else ({ connected := false,
          reconnect_delay := next_reconnect_delay s.reconnect_delay }, 1)

/-- The sleeps the reconnection loop actually performs across a sequence of
attempt outcomes. -/
def reconnect_sleeps (s : ReconnectState) : List Bool → List ℚ
  | [] => []
  | b :: rest =>
    let r := reconnect_iteration s b
    r.2 :: reconnect_sleeps r.1 rest

/-- Delay in force after `n` consecutive failed attempts from a fresh client. -/
def delay_after_failures : Nat → ℚ
  | 0 => initialReconnectState.reconnect_delay
  | n + 1 => next_reconnect_delay (delay_after_failures n)

theorem delay_after_failures_closed_form (n : Nat) :
    delay_after_failures n = min ((3 / 2 : ℚ) ^ n) 60 := by
  induction n with
  | zero =>
    simp [delay_after_failures, initialReconnectState]
  | succ n ih =>
    rw [delay_after_failures, ih, next_reconnect_delay]
    rcases le_or_lt ((3 / 2 : ℚ) ^ n) 60 with h | h
    · rw [min_eq_left h, pow_succ]
    · rw [min_eq_right h.le]
      have h60 : (60 : ℚ) ≤ (3 / 2 : ℚ) ^ (n + 1) := by
        calc (60 : ℚ) ≤ (3 / 2) ^ n := h.le
        _ ≤ (3 / 2) ^ n * (3 / 2) := by
            nlinarith [pow_pos (by norm_num : (0 : ℚ) < 3 / 2) n]
        _ = (3 / 2) ^ (n + 1) := (pow_succ _ _).symm
      rw [min_eq_right h60]
      norm_num

/-- **C5.** The backoff the claim describes exists only in the
`_reconnect_delay` variable, not in the loop's pacing: the variable starts at
1, each consecutive failure sets `min(previous × 1.5, 60)` (closed form
`min(1.5 ^ n, 60)` — the sequence 1, 1.5, 2.25, … capped at 60) and a success
while disconnected resets it to 1; but every pass of the loop sleeps the
fixed 1 second regardless of the variable, so three consecutive failures from
a fresh client are paced `[1, 1, 1]` seconds while the variable — logged as
"next attempt in …s" — has reached `27/8 = 3.375`. -/
theorem C5_backoff_computed_but_not_slept (n : Nat) (s : ReconnectState)
    (b : Bool) :
    initialReconnectState.reconnect_delay = 1
    ∧ delay_after_failures n = min ((3 / 2 : ℚ) ^ n) 60
    ∧ (s.connected = false →
        (reconnect_iteration s true).1.reconnect_delay = 1 ∧
        (reconnect_iteration s true).1.connected = true)
    ∧ (s.connected = false →
        (reconnect_iteration s false).1.reconnect_delay =
          min (s.reconnect_delay * (3 / 2)) 60)
    ∧ (reconnect_iteration s b).2 = 1
    ∧ reconnect_sleeps initialReconnectState [false, false, false] = [1, 1, 1]
    ∧ delay_after_failures 3 = 27 / 8 := by
  refine ⟨rfl, delay_after_failures_closed_form n, fun h => ?_, fun h => ?_,
    ?_, ?_, ?_⟩
  · simp [reconnect_iteration, h]
  · simp [reconnect_iteration, h, next_reconnect_delay]
  · unfold reconnect_iteration
    split_ifs <;> rfl
  · norm_num [reconnect_sleeps, reconnect_iteration, initialReconnectState]
  · norm_num [delay_after_failures, next_reconnect_delay, initialReconnectState]

/-- Concrete instance of **C5**: a success from the disconnected state resets
the variable to 1, and a failed pass still sleeps exactly 1 second. -/
theorem C5_backoff_computed_but_not_slept_witness :
    (reconnect_iteration ⟨false, 27 / 8⟩ true).1.reconnect_delay = 1
    ∧ (reconnect_iteration ⟨false, 27 / 8⟩ false).2 = 1 :=
  ⟨((C5_backoff_computed_but_not_slept 0 ⟨false, 27 / 8⟩ false).2.2.1 rfl).1,
   (C5_backoff_computed_but_not_slept 0 ⟨false, 27 / 8⟩ false).2.2.2.2.1⟩

/-! ## Stream health monitor (`YouTubeStreamer._check_stream_health`,
`_health_check_loop`) -/

/-- The `details` dictionary a health check builds:
`{"status": stream_status, "health": health, "reasons": reasons}`.
`streamStatus` is `status.get("streamStatus")`, `health` is
`healthStatus.get("status")` (each possibly `None`), `reasonTypes` the
`type` entries of `configurationIssues`. -/
structure HealthDetails where
  streamStatus : Option String
  health : Option String
  reasonTypes : List String
deriving Repr, DecidableEq

/-- Outcome of the remote `liveStreams().list` poll inside
`_check_stream_health`: no `live_stream` object set, lookup returned no
items, a successful response, or a raised exception. -/
inductive StreamPoll where
  | noLiveStream
  | streamNotFound
  | polled (streamStatus : Option String) (health : Option String)
      (reasonTypes : List String)
  | raised (msg : String)
deriving Repr, DecidableEq

/-- Python string formatting of a possibly-`None` value. -/
def pyOptStr : Option String → String
  | none => "None"
  | some s => s

/-- The `(is_healthy, message, details)` triple returned by
`_check_stream_health`; `details = none` embeds the empty dictionary `{}`. -/
structure HealthResult where
  healthy : Bool
  message : String
  details : Option HealthDetails
deriving Repr, DecidableEq

/-- `YouTubeStreamer._check_stream_health` (src/spoolup/main.py:863-927).
Only `streamStatus == "error"` is reported unhealthy; a missing stream
object, an empty lookup and a raised exception all return healthy with empty
details; `inactive` status and `bad` health are tolerated. -/
def check_stream_health : StreamPoll → HealthResult
  | .noLiveStream => ⟨true, "No live stream", none⟩
  | .streamNotFound => ⟨true, "Stream not found", none⟩
  | .raised msg => ⟨true, "Health check error (continuing): " ++ msg, none⟩
  | .polled st h rs =>
    if st = some "error" then ⟨false, "Stream error state", some ⟨st, h, rs⟩⟩
    else if st = some "inactive" then
      ⟨true, "Status: " ++ pyOptStr st ++ ", Health: " ++ pyOptStr h,
       some ⟨st, h, rs⟩⟩
    else if h = some "bad" then
      ⟨true, "Status: " ++ pyOptStr st ++ ", Health: " ++ pyOptStr h,
       some ⟨st, h, rs⟩⟩
    else
      ⟨true, "Status: " ++ pyOptStr st ++ ", Health: " ++ pyOptStr h,
       some ⟨st, h, rs⟩⟩

/-- Effects of one body execution of the `while self.is_streaming` loop of
`_health_check_loop` (src/spoolup/main.py:929-976): the starvation counter
afterwards, whether `_restart_ffmpeg_stream` was invoked, and whether the
session was stopped.  The loop body contains no call to `stop_streaming`, no
broadcast transition, no encoder termination and no write to `is_streaming`,
which the `stopped_session` field records. -/
structure HealthIterationResult where
  counter : Nat
  restarted : Bool
  stopped_session : Bool
deriving Repr, DecidableEq

/-- One iteration of `_health_check_loop` given the current
`consecutive_starvation` value.  `health = details.get("health", "unknown")`
(so the default only applies when details is the empty dict),
`reasons = details.get("reasons", [])`; a healthy sample resets the counter
before the starvation test; the counter increments only when a
`videoIngestionStarved` reason is present and `health in ["bad", "ok"]`, and
a restart fires when it reaches 6, resetting it. -/
def health_check_iteration (consecutive_starvation : Nat) (poll : StreamPoll) :
    HealthIterationResult :=
  let r := check_stream_health poll
  let health : Option String :=
    match r.details with
    | some d => d.health
    | none => some "unknown"
  let reasons : List String :=
    match r.details with
    | some d => d.reasonTypes
    | none => []
  let c1 := if r.healthy then 0 else consecutive_starvation
  let is_starvation := reasons.contains "videoIngestionStarved"
  if is_starvation ∧ (health = some "bad" ∨ health = some "ok") then
    if c1 + 1 ≥ 6 then ⟨0, true, false⟩
    else ⟨c1 + 1, false, false⟩
  else ⟨0, false, false⟩

/-- Run the health loop over a list of poll outcomes: final counter, number
of restarts triggered, and whether any iteration stopped the session. -/
def run_health_checks (c : Nat) : List StreamPoll → Nat × Nat × Bool
  | [] => (c, 0, false)
  | p :: rest =>
    let r := health_check_iteration c p
    let q := run_health_checks r.counter rest
    (q.1, (if r.restarted then 1 else 0) + q.2.1, r.stopped_session || q.2.2)

theorem health_check_iteration_no_stop (c : Nat) (p : StreamPoll) :
    (health_check_iteration c p).stopped_session = false := by
  simp only [health_check_iteration]
  split_ifs <;> rfl

theorem run_health_checks_never_stop (c : Nat) (ps : List StreamPoll) :
    (run_health_checks c ps).2.2 = false := by
  induction ps generalizing c with
  | nil => rfl
  | cons p rest ih =>
    simp [run_health_checks, health_check_iteration_no_stop, ih]

/-- The claim of **C2** is false on the code: a health sample with ingest
stream status `error` does not stop the session at that check — the
iteration neither stops anything nor even restarts the encoder. -/
theorem C2_error_sample_does_not_stop_counterexample :
    (check_stream_health (.polled (some "error") (some "good") [])).healthy = false
    ∧ health_check_iteration 0 (.polled (some "error") (some "good") []) =
        ⟨0, false, false⟩ :=
  ⟨rfl, rfl⟩

/-- **C2 (amended).** A health sample whose ingest stream status is `error`
is classified unhealthy by `_check_stream_health` — and it is the only sample
kind classified unhealthy — but the health-check loop never stops the
session: no iteration (and hence no run of the loop) stops the encoder,
transitions the broadcast, or clears the streaming flag; an unhealthy sample
merely skips the counter reset that healthy samples perform. -/
theorem C2_error_sample_logged_not_stopped (c : Nat) (p : StreamPoll)
    (ps : List StreamPoll) :
    ((check_stream_health p).healthy = false ↔
      ∃ h rs, p = .polled (some "error") h rs)
    ∧ (health_check_iteration c p).stopped_session = false
    ∧ (run_health_checks c ps).2.2 = false := by
  refine ⟨?_, health_check_iteration_no_stop c p, run_health_checks_never_stop c ps⟩
  constructor
  · intro hu
    cases p with
    | noLiveStream => simp [check_stream_health] at hu
    | streamNotFound => simp [check_stream_health] at hu
    | raised msg => simp [check_stream_health] at hu
    | polled st h rs =>
      refine ⟨h, rs, ?_⟩
      by_cases hst : st = some "error"
      · rw [hst]
      · exfalso
        simp only [check_stream_health] at hu
        rw [if_neg hst] at hu
        split_ifs at hu
  · rintro ⟨h, rs, rfl⟩
    rfl

/-- The claim of **C4** is false on the code: six consecutive samples all
carrying the `videoIngestionStarved` reason (with `bad` health on an `active`
stream, hence classified healthy) trigger no restart at all — each healthy
sample resets the counter before the increment, so it never exceeds 1. -/
theorem C4_starvation_restart_counterexample :
    run_health_checks 0
      (List.replicate 6
        (.polled (some "active") (some "bad") ["videoIngestionStarved"])) =
      (1, 0, false) := rfl

theorem starved_error_iteration (c : Nat) (h : Option String) (rs : List String)
    (hh : h = some "bad" ∨ h = some "ok")
    (hr : rs.contains "videoIngestionStarved" = true) :
    health_check_iteration c (.polled (some "error") h rs) =
      if c + 1 ≥ 6 then ⟨0, true, false⟩ else ⟨c + 1, false, false⟩ := by
  have hm : "videoIngestionStarved" ∈ rs := by simpa using hr
  rcases hh with hh | hh <;> subst hh <;>
    simp [health_check_iteration, check_stream_health, hm]

/-- The `health = details.get("health", "unknown")` read of the loop body:
the default applies only when the details dictionary is empty; a `polled`
sample always carries its `health` key (possibly `None`). -/
def sample_health (p : StreamPoll) : Option String :=
  match (check_stream_health p).details with
  | some d => d.health
  | none => some "unknown"

/-- The `reasons = details.get("reasons", [])` read of the loop body. -/
def sample_reasons (p : StreamPoll) : List String :=
  match (check_stream_health p).details with
  | some d => d.reasonTypes
  | none => []

/-- `health_check_iteration` restated through the loop body's own reads. -/
theorem health_check_iteration_eq (c : Nat) (p : StreamPoll) :
    health_check_iteration c p =
      if (sample_reasons p).contains "videoIngestionStarved" ∧
          (sample_health p = some "bad" ∨ sample_health p = some "ok") then
        if (if (check_stream_health p).healthy then 0 else c) + 1 ≥ 6 then
          ⟨0, true, false⟩
        else ⟨(if (check_stream_health p).healthy then 0 else c) + 1,
          false, false⟩
      else ⟨0, false, false⟩ := rfl

/-- The only sample `_check_stream_health` classifies unhealthy is a
successful poll with stream status `error`. -/
theorem check_unhealthy_is_error (p : StreamPoll)
    (hu : (check_stream_health p).healthy = false) :
    ∃ h rs, p = .polled (some "error") h rs := by
  cases p with
  | noLiveStream => simp [check_stream_health] at hu
  | streamNotFound => simp [check_stream_health] at hu
  | raised msg => simp [check_stream_health] at hu
  | polled st h rs =>
    refine ⟨h, rs, ?_⟩
    by_cases hst : st = some "error"
    · rw [hst]
    · exfalso
      simp only [check_stream_health] at hu
      rw [if_neg hst] at hu
      split_ifs at hu

/-- **C4 (amended).** The starvation counter can only grow on samples that
are simultaneously unhealthy (ingest status `error`), carry the
`videoIngestionStarved` reason and have health `bad` or `ok`: six such
consecutive samples starting from a zero counter trigger exactly one FFmpeg
restart, with the counter 0 afterwards.  The iteration is characterised over
all samples: any sample lacking the starvation reason or with health outside
{`bad`, `ok`} resets the counter to 0 without a restart; a healthy starvation
sample (any non-`error` status, `inactive` included) resets the counter
before incrementing, leaving it at 1 with no restart; an unhealthy starvation
sample increments it, restarting and resetting at 6; hence a counter above 1
occurs only after an unhealthy (`error`-status) starvation sample with health
`bad` or `ok`. -/
theorem C4_starvation_threshold_restart (c : Nat) (p : StreamPoll)
    (h : Option String) (rs : List String) :
    ((h = some "bad" ∨ h = some "ok") →
      rs.contains "videoIngestionStarved" = true →
      run_health_checks 0 (List.replicate 6 (.polled (some "error") h rs)) =
        (0, 1, false))
    ∧ (¬((sample_reasons p).contains "videoIngestionStarved" = true ∧
        (sample_health p = some "bad" ∨ sample_health p = some "ok")) →
      health_check_iteration c p = ⟨0, false, false⟩)
    ∧ ((sample_reasons p).contains "videoIngestionStarved" = true →
      (sample_health p = some "bad" ∨ sample_health p = some "ok") →
      (check_stream_health p).healthy = true →
      health_check_iteration c p = ⟨1, false, false⟩)
    ∧ ((sample_reasons p).contains "videoIngestionStarved" = true →
      (sample_health p = some "bad" ∨ sample_health p = some "ok") →
      (check_stream_health p).healthy = false →
      health_check_iteration c p =
        if c + 1 ≥ 6 then ⟨0, true, false⟩ else ⟨c + 1, false, false⟩)
    ∧ (1 < (health_check_iteration c p).counter →
      (check_stream_health p).healthy = false ∧
      (∃ h' rs', p = .polled (some "error") h' rs') ∧
      (sample_reasons p).contains "videoIngestionStarved" = true ∧
      (sample_health p = some "bad" ∨ sample_health p = some "ok")) := by
  refine ⟨fun hh hr => ?_, fun hn => ?_, fun hr hh hy => ?_, fun hr hh hy => ?_,
    fun hg => ?_⟩
  · have hi := fun c => starved_error_iteration c h rs hh hr
    simp [List.replicate, run_health_checks, hi]
  · rw [health_check_iteration_eq, if_neg hn]
  · rw [health_check_iteration_eq, if_pos ⟨hr, hh⟩, hy]
    simp
  · rw [health_check_iteration_eq, if_pos ⟨hr, hh⟩, hy]
    simp
  · rw [health_check_iteration_eq] at hg
    by_cases hcond : (sample_reasons p).contains "videoIngestionStarved" = true ∧
        (sample_health p = some "bad" ∨ sample_health p = some "ok")
    · rw [if_pos hcond] at hg
      cases hy : (check_stream_health p).healthy with
      | true =>
        rw [hy] at hg
        simp at hg
      | false =>
        exact ⟨rfl, check_unhealthy_is_error p hy, hcond.1, hcond.2⟩
    · rw [if_neg hcond] at hg
      simp at hg

/-- Concrete instances of **C4 (amended)**: six unhealthy starvation samples
give exactly one restart and counter 0; a non-starvation sample and a
starvation sample with health `good` reset the counter; healthy starvation
samples with `active` and with `inactive` status leave it at 1; an unhealthy
starvation sample at counter 5 triggers the restart and resets. -/
theorem C4_starvation_threshold_restart_witness :
    run_health_checks 0
      (List.replicate 6
        (.polled (some "error") (some "bad") ["videoIngestionStarved"])) =
      (0, 1, false)
    ∧ health_check_iteration 5 (.polled (some "active") (some "bad") []) =
        ⟨0, false, false⟩
    ∧ health_check_iteration 5
        (.polled (some "error") (some "good") ["videoIngestionStarved"]) =
        ⟨0, false, false⟩
    ∧ health_check_iteration 5
        (.polled (some "active") (some "bad") ["videoIngestionStarved"]) =
        ⟨1, false, false⟩
    ∧ health_check_iteration 5
        (.polled (some "inactive") (some "ok") ["videoIngestionStarved"]) =
        ⟨1, false, false⟩
    ∧ health_check_iteration 5
        (.polled (some "error") (some "bad") ["videoIngestionStarved"]) =
        ⟨0, true, false⟩ :=
  ⟨(C4_starvation_threshold_restart 0
      (.polled (some "error") (some "bad") ["videoIngestionStarved"])
      (some "bad") ["videoIngestionStarved"]).1 (Or.inl rfl) rfl,
   (C4_starvation_threshold_restart 5
      (.polled (some "active") (some "bad") []) none []).2.1 (by decide),
   (C4_starvation_threshold_restart 5
      (.polled (some "error") (some "good") ["videoIngestionStarved"])
      none []).2.1 (by decide),
   (C4_starvation_threshold_restart 5
      (.polled (some "active") (some "bad") ["videoIngestionStarved"])
      none []).2.2.1 rfl (Or.inl rfl) rfl,
   (C4_starvation_threshold_restart 5
      (.polled (some "inactive") (some "ok") ["videoIngestionStarved"])
      none []).2.2.1 rfl (Or.inr rfl) rfl,
   by
    have h4 := (C4_starvation_threshold_restart 5
      (.polled (some "error") (some "bad") ["videoIngestionStarved"])
      none []).2.2.2.1 rfl (Or.inl rfl) rfl
    simpa using h4⟩

/-- **C10.** The health probe fails open: when no live-stream object is set,
when the remote lookup returns no matching stream, and when the query raises,
`_check_stream_health` reports healthy with empty details, and such a sample
resets the starvation counter to 0, triggers no restart and stops nothing. -/
theorem C10_health_probe_fails_open (c : Nat) (msg : String) :
    check_stream_health .noLiveStream = ⟨true, "No live stream", none⟩
    ∧ check_stream_health .streamNotFound = ⟨true, "Stream not found", none⟩
    ∧ (check_stream_health (.raised msg)).healthy = true
    ∧ (check_stream_health (.raised msg)).details = none
    ∧ health_check_iteration c .noLiveStream = ⟨0, false, false⟩
    ∧ health_check_iteration c .streamNotFound = ⟨0, false, false⟩
    ∧ health_check_iteration c (.raised msg) = ⟨0, false, false⟩ :=
  ⟨rfl, rfl, rfl, rfl, rfl, rfl, rfl⟩

/-! ## Encoder supervision (`YouTubeStreamer.start_streaming`,
`_ffmpeg_monitor_loop`, `stop_streaming`) -/

/-- Environment of one `start_streaming` invocation
(src/spoolup/main.py:1138-1291): the configuration and the outcomes of the
external probes it performs, in the order the code consults them.
`proc_alive_after_grace` is the `self.ffmpeg_process.poll() is None` liveness
check performed after the fixed `time.sleep(5)` startup grace interval. -/
structure StartEnv where
  stream_url : Option String
  ffmpeg_available : Bool
  webcam_raises : Bool
  webcam_http_ok : Bool
  webcam_first_chunk : Bool
  proc_alive_after_grace : Bool
  have_stream_and_broadcast : Bool
  stream_active_within_60 : Bool
  proc_alive_after_wait : Bool
  proc_alive_before_transition : Bool
  testing_transition_ok : Bool
  live_results : List Bool
deriving Repr, DecidableEq

/-- Observable outcome of `start_streaming`: its return value, the
`is_streaming` flag, whether the health-monitor and encoder-monitor loops
were started, and the broadcast targets passed to `_transition_broadcast`. -/
structure StartResult where
  success : Bool
  is_streaming : Bool
  health_monitor_started : Bool
  ffmpeg_monitor_started : Bool
  transitions_attempted : List String
deriving Repr, DecidableEq

/-- An early `return False`: nothing started, no transition attempted. -/
def startFailure : StartResult := ⟨false, false, false, false, []⟩

/-- Number of `_transition_broadcast(id, "live")` calls made by the bounded
retry loop `for attempt in range(10)`: the failures before the first success
plus the success itself, or all 10 when every attempt fails. -/
def live_attempt_count (rs : List Bool) : Nat :=
  match rs.findIdx? (· = true) with
  | some i => i + 1
  | none => rs.length

/-- `YouTubeStreamer.start_streaming` (src/spoolup/main.py:1138-1291).
Early returns: missing stream URL, FFmpeg unavailable, webcam test raising /
non-200 / empty first chunk, the encoder process dead after the startup grace
interval, dead while waiting for stream activation, dead before the state
transition, or a failed transition to `testing`.  Only the final success path
sets `is_streaming` and starts the two monitor loops; a failed transition to
`live` is retried up to 10 times and then tolerated. -/
def start_streaming (env : StartEnv) : StartResult :=
  if env.stream_url = none then startFailure
  else if ¬env.ffmpeg_available then startFailure
  else if env.webcam_raises then startFailure
  else if ¬env.webcam_http_ok then startFailure
  else if ¬env.webcam_first_chunk then startFailure
  else if ¬env.proc_alive_after_grace then startFailure
  else if env.have_stream_and_broadcast then
    if ¬env.stream_active_within_60 ∧ ¬env.proc_alive_after_wait then startFailure
    else if ¬env.proc_alive_before_transition then startFailure
    else if ¬env.testing_transition_ok then
      { startFailure with transitions_attempted := ["testing"] }
    else
      { success := true, is_streaming := true, health_monitor_started := true,
        ffmpeg_monitor_started := true,
        transitions_attempted :=
          "testing" ::
            List.replicate (live_attempt_count (env.live_results.take 10)) "live" }
  else
    { success := true, is_streaming := true, health_monitor_started := true,
      ffmpeg_monitor_started := true, transitions_attempted := [] }

/-- **C6.** If the encoder process has already exited when liveness is
checked after the fixed startup grace interval (all earlier probes having
passed, so the check is reached), `start_streaming` returns failure, the
streaming flag stays false, neither the health-monitor nor the
encoder-monitor loop is started, and no broadcast transition — to `testing`,
`live`, or anything else — is issued, leaving the broadcast pre-`testing`. -/
theorem C6_grace_exit_aborts_start (env : StartEnv)
    (hu : env.stream_url ≠ none)
    (hf : env.ffmpeg_available = true)
    (hw1 : env.webcam_raises = false)
    (hw2 : env.webcam_http_ok = true)
    (hw3 : env.webcam_first_chunk = true)
    (hd : env.proc_alive_after_grace = false) :
    (start_streaming env).success = false
    ∧ (start_streaming env).is_streaming = false
    ∧ (start_streaming env).health_monitor_started = false
    ∧ (start_streaming env).ffmpeg_monitor_started = false
    ∧ (start_streaming env).transitions_attempted = [] := by
  have h : start_streaming env = startFailure := by
    unfold start_streaming
    rw [if_neg hu, if_neg (by simp [hf]), if_neg (by simp [hw1]),
      if_neg (by simp [hw2]), if_neg (by simp [hw3]), if_pos (by simp [hd])]
  rw [h]
  exact ⟨rfl, rfl, rfl, rfl, rfl⟩

/-- Concrete instance of **C6**: a fully configured environment whose encoder
exits during the grace window yields the all-false result. -/
theorem C6_grace_exit_aborts_start_witness :
    start_streaming
      ⟨some "rtmp://a.rtmp.youtube.com/live2/key", true, false, true, true,
        false, true, true, true, true, true, []⟩ = startFailure := by
  have h := C6_grace_exit_aborts_start
    ⟨some "rtmp://a.rtmp.youtube.com/live2/key", true, false, true, true,
      false, true, true, true, true, true, []⟩
    (by simp) rfl rfl rfl rfl rfl
  obtain ⟨h1, h2, h3, h4, h5⟩ := h
  cases hs : start_streaming
      ⟨some "rtmp://a.rtmp.youtube.com/live2/key", true, false, true, true,
        false, true, true, true, true, true, []⟩
  rw [hs] at h1 h2 h3 h4 h5
  simp_all [startFailure]

/-- The fields of `YouTubeStreamer` touched by `_ffmpeg_monitor_loop` and
`stop_streaming`: the streaming flag, the encoder process handle
(`none` = no handle, `some b` = handle present with `b` = still running), the
presence of a live broadcast, and whether a `complete` broadcast transition
has been requested. -/
structure StreamerState where
  is_streaming : Bool
  ffmpeg_alive : Option Bool
  live_broadcast : Bool
  broadcast_complete_requested : Bool
deriving Repr, DecidableEq

/-- One wake of `_ffmpeg_monitor_loop` (src/spoolup/main.py:1293-1316) after
its `time.sleep(5)`: returns the new state and whether the loop exits.  When
the process handle exists and `poll()` reports an exit, the body logs, reads
stderr, sets `self.is_streaming = False` and breaks — nothing else. -/
def ffmpeg_monitor_iteration (s : StreamerState) : StreamerState × Bool :=
  if ¬s.is_streaming then (s, true)
  else
    match s.ffmpeg_alive with
    | some false => ({ s with is_streaming := false }, true)
    | _ => (s, false)

/-- `YouTubeStreamer.stop_streaming` (src/spoolup/main.py:1359-1381): requests
a `complete` broadcast transition when a live broadcast exists, terminates
the encoder process and clears its handle, and clears the streaming flag. -/
def stop_streaming (s : StreamerState) : StreamerState :=
  { s with
    broadcast_complete_requested :=
      s.broadcast_complete_requested || s.live_broadcast,
    ffmpeg_alive := none,
    is_streaming := false }

/-- The claim of **C7** is false on the code: when the encoder process has
exited unexpectedly while the session is active, the monitor loop clears only
the streaming flag — the process handle is kept, no `complete` broadcast
transition is requested, and the result differs from what `stop_streaming`
would have produced. -/
theorem C7_unexpected_exit_cleanup_counterexample :
    (ffmpeg_monitor_iteration ⟨true, some false, true, false⟩).1 =
      ⟨false, some false, true, false⟩
    ∧ (ffmpeg_monitor_iteration
        ⟨true, some false, true, false⟩).1.broadcast_complete_requested = false
    ∧ (ffmpeg_monitor_iteration ⟨true, some false, true, false⟩).1 ≠
        stop_streaming ⟨true, some false, true, false⟩ :=
  ⟨rfl, rfl, by decide⟩

/-- **C7 (amended).** Whenever the encoder process exits unexpectedly while
the session is still active, the monitor loop clears the streaming flag and
exits — which makes every `is_streaming`-gated loop wind down — but performs
no further cleanup: the encoder handle is kept, no `complete` transition is
requested, and `stop_streaming` (which would request the `complete`
transition and clear the handle) is not invoked. -/
theorem C7_unexpected_exit_only_clears_flag (s : StreamerState)
    (h1 : s.is_streaming = true) (h2 : s.ffmpeg_alive = some false) :
    ffmpeg_monitor_iteration s = ({ s with is_streaming := false }, true)
    ∧ ({ s with is_streaming := false } : StreamerState).ffmpeg_alive = some false
    ∧ ({ s with is_streaming := false } : StreamerState).broadcast_complete_requested
        = s.broadcast_complete_requested
    ∧ (stop_streaming s).broadcast_complete_requested =
        (s.broadcast_complete_requested || s.live_broadcast)
    ∧ (stop_streaming s).ffmpeg_alive = none := by
  refine ⟨?_, by rw [h2], rfl, rfl, rfl⟩
  simp [ffmpeg_monitor_iteration, h1, h2]

/-- Concrete instance of **C7 (amended)**. -/
theorem C7_unexpected_exit_only_clears_flag_witness :
    ffmpeg_monitor_iteration ⟨true, some false, true, true⟩ =
      (⟨false, some false, true, true⟩, true) :=
  (C7_unexpected_exit_only_clears_flag ⟨true, some false, true, true⟩ rfl rfl).1

/-! ## Description updater (`YouTubeStreamer._update_broadcast_description`,
`_description_update_loop`) -/

/-- The snippet fields `_update_broadcast_description` reads and writes:
`title`, `description`, `scheduledStartTime`, `scheduledEndTime`. -/
structure BroadcastSnippet where
  title : Option String
  description : String
  scheduledStartTime : Option String
  scheduledEndTime : Option String
deriving Repr, DecidableEq

/-- A broadcast resource: its id, its snippet part, and its other parts
(status, contentDetails), kept opaque — an update with `part="snippet"` can
touch only the snippet. -/
structure Broadcast where
  id : String
  snippet : BroadcastSnippet
  status_part : String
  contentDetails_part : String
deriving Repr, DecidableEq

/-- Outcome of the `liveBroadcasts().list(part="snippet", ...)` snapshot
fetched at the top of `_update_broadcast_description`. -/
inductive SnippetFetch where
  | found (snippet : BroadcastSnippet)
  | notFound
  | raised (msg : String)
deriving Repr, DecidableEq

/-- The snippet body pushed by the update call
(src/spoolup/main.py:1084-1095): `title` is `snippet.get("title", "")`, the
description is the fresh one, and the two scheduled times are copied from the
fetched snapshot. -/
def build_update_body (fetched : BroadcastSnippet) (description : String) :
    BroadcastSnippet :=
  { title := some (fetched.title.getD ""),
    description := description,
    scheduledStartTime := fetched.scheduledStartTime,
    scheduledEndTime := fetched.scheduledEndTime }

/-- Remote effect of `liveBroadcasts().update(part="snippet", ...)`: with the
`part` selection fixed to `snippet`, only the snippet part of the resource is
replaced; id, status and contentDetails are untouched. -/
def apply_snippet_update (b : Broadcast) (body : BroadcastSnippet) : Broadcast :=
  { b with snippet := body }

/-- `_update_broadcast_description` (src/spoolup/main.py:1064-1100):
returns the function's boolean result together with the snippet body pushed
to the update call, when one was issued.  A missing broadcast object, an
empty lookup, or a raised fetch all return `False` without pushing; a raised
update call returns `False` after pushing. -/
def update_broadcast_description (lb : Option Broadcast) (fetch : SnippetFetch)
    (description : String) (update_raises : Bool) :
    Bool × Option BroadcastSnippet :=
  match lb with
  | none => (false, none)
  | some _ =>
    match fetch with
    | .notFound => (false, none)
    | .raised _ => (false, none)
    | .found snip =>
      let body := build_update_body snip description
      if update_raises then (false, some body) else (true, some body)

/-- Python truthiness of an optional string. -/
def truthyStr : Option String → Bool
  | none => false
  | some s => !(s = "")

/-- The fields of the `_description_update_loop` iteration state: the
`is_streaming` flag it polls and the `last_update` timestamp. -/
structure DescLoopState where
  is_streaming : Bool
  last_update : Int
deriving Repr, DecidableEq

/-- One wake of `_description_update_loop` (src/spoolup/main.py:1102-1136)
at time `now`: exits when streaming has stopped, waits until 15 s have
elapsed since the last successful update, and otherwise fetches fresh print
stats and pushes a rebuilt description (the `_build_broadcast_description`
output is abstracted as the string `description`; only the description field
is rebuilt).  Every failure is caught and logged inside the loop body, which
never writes `is_streaming`. -/
def description_update_iteration (st : DescLoopState) (now : Int)
    (stats_ok : Bool) (display_title : Option String) (lb : Option Broadcast)
    (fetch : SnippetFetch) (description : String) (update_raises : Bool) :
    DescLoopState × Option BroadcastSnippet :=
  if ¬st.is_streaming then (st, none)
  else if now - st.last_update < 15 then (st, none)
  else if stats_ok && truthyStr display_title then
    let r := update_broadcast_description lb fetch description update_raises
    if r.1 then ({ st with last_update := now }, r.2)
    else (st, r.2)
  else (st, none)

/-- **C8.** Every broadcast-description update pushed by the 15-second loop
changes only the description: the pushed snippet carries the fetched
snapshot's title, scheduledStartTime and scheduledEndTime unchanged, the
`part="snippet"` update leaves the id and the non-snippet broadcast parts
untouched, every pushed body arises from such a fetched snapshot, and no
outcome of the fetch or of the update call changes the streaming flag. -/
theorem C8_description_update_frame (b : Broadcast) (snip : BroadcastSnippet)
    (desc t : String) (st : DescLoopState) (now : Int) (stats_ok : Bool)
    (dt : Option String) (lb : Option Broadcast) (fetch : SnippetFetch)
    (ur : Bool) :
    (snip.title = some t → (build_update_body snip desc).title = snip.title)
    ∧ (build_update_body snip desc).scheduledStartTime = snip.scheduledStartTime
    ∧ (build_update_body snip desc).scheduledEndTime = snip.scheduledEndTime
    ∧ (build_update_body snip desc).description = desc
    ∧ (apply_snippet_update b (build_update_body snip desc)).id = b.id
    ∧ (apply_snippet_update b (build_update_body snip desc)).status_part =
        b.status_part
    ∧ (apply_snippet_update b (build_update_body snip desc)).contentDetails_part =
        b.contentDetails_part
    ∧ ((update_broadcast_description lb fetch desc ur).2 = none ∨
        ∃ s, fetch = .found s ∧
          (update_broadcast_description lb fetch desc ur).2 =
            some (build_update_body s desc))
    ∧ (description_update_iteration st now stats_ok dt lb fetch desc
        ur).1.is_streaming = st.is_streaming := by
  refine ⟨fun h => by simp [build_update_body, h], rfl, rfl, rfl, rfl, rfl, rfl,
    ?_, ?_⟩
  · rcases lb with _ | b'
    · exact Or.inl rfl
    · rcases fetch with snip' | _ | msg
      · rcases ur with _ | _ <;> exact Or.inr ⟨snip', rfl, rfl⟩
      · exact Or.inl rfl
      · exact Or.inl rfl
  · simp only [description_update_iteration]
    split_ifs <;> rfl

/-- Concrete instance of **C8**: a pushed body preserves the fetched title
and scheduled times, and a raised update leaves the streaming flag alone. -/
theorem C8_description_update_frame_witness :
    (build_update_body
        ⟨some "My print", "old", some "2025-01-01T00:00:00Z", none⟩
        "fresh stats").title = some "My print"
    ∧ (description_update_iteration ⟨true, 0⟩ 20 true (some "My print")
        (some ⟨"b1", ⟨some "My print", "old", none, none⟩, "st", "cd"⟩)
        (.raised "quota") "fresh stats" false).1.is_streaming = true :=
  ⟨(C8_description_update_frame
      ⟨"b1", ⟨some "My print", "old", none, none⟩, "st", "cd"⟩
      ⟨some "My print", "old", some "2025-01-01T00:00:00Z", none⟩
      "fresh stats" "My print" ⟨true, 0⟩ 20 true (some "My print") none
      (.raised "quota") false).1 rfl,
   (C8_description_update_frame
      ⟨"b1", ⟨some "My print", "old", none, none⟩, "st", "cd"⟩
      ⟨some "My print", "old", some "2025-01-01T00:00:00Z", none⟩
      "fresh stats" "My print" ⟨true, 0⟩ 20 true (some "My print")
      (some ⟨"b1", ⟨some "My print", "old", none, none⟩, "st", "cd"⟩)
      (.raised "quota") false).2.2.2.2.2.2.2.2⟩

end SpoolUp
